import Mathlib

/-!
Verification of the StarterApp `WebAuthModule` (OAuth 2.0 + PKCE loopback flow).

Shallow embedding of `src/windows/StarterApp/WebAuthModule.cpp`:

* `Base64UrlEncode` — base64 (via `CryptBinaryToStringA` with
  `CRYPT_STRING_BASE64 | CRYPT_STRING_NOCRLF`, modelled by the standard
  RFC 4648 base64 encoding `base64Encode`) followed by the char-wise
  `+`→`-`, `/`→`_` swap and `=`-stripping loop.
* `generateCodeVerifier` — 32 bytes from `BCryptGenRandom`, base64url-encoded.
* `sha256` — the four-stage BCrypt hashing sequence with its handle lifecycle,
  modelled as an event trace plus an `Except` outcome.
* `authenticate` — the loopback listener thread body: Winsock init, socket,
  bind, listen, URL construction, `ShellExecuteW`, timed accept, single
  `recv`, unconditional HTTP 200 response, socket teardown, and the
  `std::regex_search` of `GET\s+(/\S+)\s+HTTP` over the received text.

External calls (Winsock, BCrypt, ShellExecute) are modelled by environment
records carrying their outcomes; the embedding is a deterministic function of
that environment producing the event trace and the promise outcome.
-/

namespace WebAuth

/-- Model of `React::ReactError`: an error code ("kind") plus a message, as passed to
`ReactPromise::Reject`. -/
structure ReactError where
  code : String
  message : String
deriving DecidableEq, Repr

/-! ## Base64 / base64url encoding

`CryptBinaryToStringA(..., CRYPT_STRING_BASE64 | CRYPT_STRING_NOCRLF, ...)`
produces standard RFC 4648 base64 with `=` padding and no line breaks; we
model it with the textbook 3-bytes-to-4-chars encoder. -/

/-- The standard base64 alphabet, index 0–63. -/
def b64Alphabet : List Char :=
  "ABCDEFGHIJKLMNOPQRSTUVWXYZabcdefghijklmnopqrstuvwxyz0123456789+/".toList

/-- Character for a 6-bit value. -/
def b64Char (n : Nat) : Char := b64Alphabet.getD n 'A'

/-- Standard base64 encoding of a byte list (bytes are `Nat`s `< 256`),
with `=` padding. -/
def base64Encode : List Nat → List Char
  | [] => []
  | [a] => [b64Char (a / 4), b64Char (a % 4 * 16), '=', '=']
  | [a, b] => [b64Char (a / 4), b64Char (a % 4 * 16 + b / 16),
               b64Char (b % 16 * 4), '=']
  | a :: b :: c :: rest =>
      b64Char (a / 4) :: b64Char (a % 4 * 16 + b / 16) ::
      b64Char (b % 16 * 4 + c / 64) :: b64Char (c % 64) :: base64Encode rest

/-- The char-wise conversion loop of `WebAuthModule::Base64UrlEncode`:
`+`→`-`, `/`→`_` (the `=` case is the `continue`, modelled by the
`filter` below). -/
def b64ToUrl (c : Char) : Char :=
  if c = '+' then '-' else if c = '/' then '_' else c

/-- Model of `WebAuthModule::Base64UrlEncode`: base64-encode, drop every `=`,
swap `+`→`-` and `/`→`_`. -/
def Base64UrlEncode (data : List Nat) : String :=
  String.mk (((base64Encode data).filter (· ≠ '=')).map b64ToUrl)

/-! ### Reference base64 decoding (for the round-trip claim)

The spec's round-trip property re-adds standard padding, swaps `-`/`_`
back, and decodes with standard base64. -/

/-- Swap `-`→`+` and `_`→`/` (inverse of the url-safe swap). -/
def urlToB64 (c : Char) : Char :=
  if c = '-' then '+' else if c = '_' then '/' else c

/-- Re-add standard `=` padding up to a multiple of four characters. -/
def padB64 (s : List Char) : List Char :=
  s ++ List.replicate ((4 - s.length % 4) % 4) '='

/-- The 6-bit value of a base64 alphabet character (64 if not in the alphabet). -/
def b64Value (c : Char) : Nat := b64Alphabet.findIdx (· = c)

/-- Standard base64 decoding: 4 characters at a time, `=` signalling one or
two missing output bytes in the final quantum. -/
def base64Decode : List Char → List Nat
  | c1 :: c2 :: c3 :: c4 :: rest =>
      (if c3 = '=' then [b64Value c1 * 4 + b64Value c2 / 16]
       else if c4 = '=' then
         [b64Value c1 * 4 + b64Value c2 / 16,
          b64Value c2 % 16 * 16 + b64Value c3 / 4]
       else
         [b64Value c1 * 4 + b64Value c2 / 16,
          b64Value c2 % 16 * 16 + b64Value c3 / 4,
          b64Value c3 % 4 * 64 + b64Value c4]) ++ base64Decode rest
  | _ => []

/-- The spec's decoding direction for base64url text: swap the url-safe
characters back, re-add standard padding, decode as standard base64. -/
def base64UrlDecode (s : String) : List Nat :=
  base64Decode (padB64 (s.toList.map urlToB64))

/-! ### Round-trip lemmas -/

theorem b64Value_b64Char {n : Nat} (h : n < 64) : b64Value (b64Char n) = n := by
  revert h
  revert n
  decide

theorem b64Char_ne_eq {n : Nat} (h : n < 64) : b64Char n ≠ '=' := by
  revert h
  revert n
  decide

theorem b64Char_mem_alphabet {n : Nat} (h : n < 64) : b64Char n ∈ b64Alphabet := by
  revert h
  revert n
  decide

theorem urlToB64_b64ToUrl_alphabet {c : Char} (h : c ∈ b64Alphabet) :
    urlToB64 (b64ToUrl c) = c := by
  revert h
  revert c
  decide

theorem b64ToUrl_alphabet_ne {c : Char} (h : c ∈ b64Alphabet) :
    b64ToUrl c ≠ '+' ∧ b64ToUrl c ≠ '/' ∧ b64ToUrl c ≠ '=' := by
  revert h
  revert c
  decide

/-- Every character of a base64 encoding of in-range bytes is either an
alphabet character or `=`. -/
theorem base64Encode_chars : ∀ (b : List Nat), (∀ x ∈ b, x < 256) →
    ∀ c ∈ base64Encode b, c ∈ b64Alphabet ∨ c = '='
  | [], _, c, hc => by simp [base64Encode] at hc
  | [a], h, c, hc => by
      have ha : a < 256 := h a (by simp)
      simp only [base64Encode, List.mem_cons, List.not_mem_nil, or_false] at hc
      rcases hc with rfl | rfl | rfl | rfl
      · exact Or.inl (b64Char_mem_alphabet (by omega))
      · exact Or.inl (b64Char_mem_alphabet (by omega))
      · exact Or.inr rfl
      · exact Or.inr rfl
  | [a, b], h, c, hc => by
      have ha : a < 256 := h a (by simp)
      have hb : b < 256 := h b (by simp)
      simp only [base64Encode, List.mem_cons, List.not_mem_nil, or_false] at hc
      rcases hc with rfl | rfl | rfl | rfl
      · exact Or.inl (b64Char_mem_alphabet (by omega))
      · exact Or.inl (b64Char_mem_alphabet (by omega))
      · exact Or.inl (b64Char_mem_alphabet (by omega))
      · exact Or.inr rfl
  | a :: b :: c0 :: rest, h, c, hc => by
      have ha : a < 256 := h a (by simp)
      have hb : b < 256 := h b (by simp)
      have hc0 : c0 < 256 := h c0 (by simp)
      simp only [base64Encode, List.mem_cons] at hc
      rcases hc with rfl | rfl | rfl | rfl | hmem
      · exact Or.inl (b64Char_mem_alphabet (by omega))
      · exact Or.inl (b64Char_mem_alphabet (by omega))
      · exact Or.inl (b64Char_mem_alphabet (by omega))
      · exact Or.inl (b64Char_mem_alphabet (by omega))
      · exact base64Encode_chars rest
          (fun x hx => h x (by simp [hx])) c hmem

/-- Padding commutes with a full leading 4-character quantum. -/
theorem padB64_cons4 (c1 c2 c3 c4 : Char) (l : List Char) :
    padB64 (c1 :: c2 :: c3 :: c4 :: l) = c1 :: c2 :: c3 :: c4 :: padB64 l := by
  simp only [padB64, List.length_cons, List.cons_append, List.cons.injEq,
    true_and]
  congr 2
  omega

/-- Filtering `=` away keeps a non-`=` head. -/
theorem filter_ne_cons {c : Char} (hc : c ≠ '=') (l : List Char) :
    (c :: l).filter (· ≠ '=') = c :: l.filter (· ≠ '=') := by
  simp [List.filter_cons, hc]

/-- Filtering `=` away drops an `=` head. -/
theorem filter_eq_head_cons (l : List Char) :
    ('=' :: l).filter (· ≠ '=') = l.filter (· ≠ '=') := by
  simp [List.filter_cons]

/-- Core round-trip: stripping the padding, re-padding and decoding a base64
encoding of in-range bytes recovers the bytes. -/
theorem base64Decode_padB64_filter : ∀ (b : List Nat), (∀ x ∈ b, x < 256) →
    base64Decode (padB64 ((base64Encode b).filter (· ≠ '='))) = b
  | [], _ => by simp [base64Encode, padB64, base64Decode]
  | [a], h => by
      have ha : a < 256 := h a (by simp)
      have h1 : a / 4 < 64 := by omega
      have h2 : a % 4 * 16 < 64 := by omega
      show base64Decode (padB64 (([b64Char (a / 4), b64Char (a % 4 * 16),
        '=', '=']).filter (· ≠ '='))) = [a]
      rw [filter_ne_cons (b64Char_ne_eq h1), filter_ne_cons (b64Char_ne_eq h2),
        filter_eq_head_cons, filter_eq_head_cons, List.filter_nil]
      show base64Decode ([b64Char (a / 4), b64Char (a % 4 * 16)] ++
        List.replicate ((4 - [b64Char (a / 4), b64Char (a % 4 * 16)].length
          % 4) % 4) '=') = [a]
      norm_num [List.replicate]
      show base64Decode [b64Char (a / 4), b64Char (a % 4 * 16), '=', '='] = [a]
      simp only [base64Decode, if_pos rfl, List.append_nil]
      rw [b64Value_b64Char h1, b64Value_b64Char h2]
      have e1 : a / 4 * 4 + a % 4 * 16 / 16 = a := by omega
      rw [e1]
      simp
  | [a, b], h => by
      have ha : a < 256 := h a (by simp)
      have hb : b < 256 := h b (by simp)
      have h1 : a / 4 < 64 := by omega
      have h2 : a % 4 * 16 + b / 16 < 64 := by omega
      have h3 : b % 16 * 4 < 64 := by omega
      show base64Decode (padB64 (([b64Char (a / 4),
        b64Char (a % 4 * 16 + b / 16), b64Char (b % 16 * 4),
        '=']).filter (· ≠ '='))) = [a, b]
      rw [filter_ne_cons (b64Char_ne_eq h1), filter_ne_cons (b64Char_ne_eq h2),
        filter_ne_cons (b64Char_ne_eq h3), filter_eq_head_cons,
        List.filter_nil]
      show base64Decode ([b64Char (a / 4), b64Char (a % 4 * 16 + b / 16),
        b64Char (b % 16 * 4)] ++ List.replicate ((4 - [b64Char (a / 4),
          b64Char (a % 4 * 16 + b / 16), b64Char (b % 16 * 4)].length % 4) % 4)
        '=') = [a, b]
      norm_num [List.replicate]
      show base64Decode [b64Char (a / 4), b64Char (a % 4 * 16 + b / 16),
        b64Char (b % 16 * 4), '='] = [a, b]
      simp only [base64Decode, if_neg (b64Char_ne_eq h3), if_pos rfl,
        List.append_nil]
      rw [b64Value_b64Char h1, b64Value_b64Char h2, b64Value_b64Char h3]
      have e1 : a / 4 * 4 + (a % 4 * 16 + b / 16) / 16 = a := by omega
      have e2 : (a % 4 * 16 + b / 16) % 16 * 16 + b % 16 * 4 / 4 = b := by
        omega
      rw [e1, e2]
      simp
  | a :: b :: c0 :: rest, h => by
      have ha : a < 256 := h a (by simp)
      have hb : b < 256 := h b (by simp)
      have hc0 : c0 < 256 := h c0 (by simp)
      have h1 : a / 4 < 64 := by omega
      have h2 : a % 4 * 16 + b / 16 < 64 := by omega
      have h3 : b % 16 * 4 + c0 / 64 < 64 := by omega
      have h4 : c0 % 64 < 64 := by omega
      have ih := base64Decode_padB64_filter rest
        (fun x hx => h x (by simp [hx]))
      show base64Decode (padB64 ((b64Char (a / 4) ::
        b64Char (a % 4 * 16 + b / 16) :: b64Char (b % 16 * 4 + c0 / 64) ::
        b64Char (c0 % 64) :: base64Encode rest).filter (· ≠ '='))) =
        a :: b :: c0 :: rest
      rw [filter_ne_cons (b64Char_ne_eq h1), filter_ne_cons (b64Char_ne_eq h2),
        filter_ne_cons (b64Char_ne_eq h3), filter_ne_cons (b64Char_ne_eq h4)]
      rw [padB64_cons4]
      show (if b64Char (b % 16 * 4 + c0 / 64) = '=' then
          [b64Value (b64Char (a / 4)) * 4 +
            b64Value (b64Char (a % 4 * 16 + b / 16)) / 16]
        else if b64Char (c0 % 64) = '=' then
          [b64Value (b64Char (a / 4)) * 4 +
            b64Value (b64Char (a % 4 * 16 + b / 16)) / 16,
           b64Value (b64Char (a % 4 * 16 + b / 16)) % 16 * 16 +
            b64Value (b64Char (b % 16 * 4 + c0 / 64)) / 4]
        else
          [b64Value (b64Char (a / 4)) * 4 +
            b64Value (b64Char (a % 4 * 16 + b / 16)) / 16,
           b64Value (b64Char (a % 4 * 16 + b / 16)) % 16 * 16 +
            b64Value (b64Char (b % 16 * 4 + c0 / 64)) / 4,
           b64Value (b64Char (b % 16 * 4 + c0 / 64)) % 4 * 64 +
            b64Value (b64Char (c0 % 64))]) ++
        base64Decode (padB64 ((base64Encode rest).filter (· ≠ '='))) =
        a :: b :: c0 :: rest
      rw [if_neg (b64Char_ne_eq h3), if_neg (b64Char_ne_eq h4), ih]
      rw [b64Value_b64Char h1, b64Value_b64Char h2, b64Value_b64Char h3,
        b64Value_b64Char h4]
      have e1 : a / 4 * 4 + (a % 4 * 16 + b / 16) / 16 = a := by omega
      have e2 : (a % 4 * 16 + b / 16) % 16 * 16 +
          (b % 16 * 4 + c0 / 64) / 4 = b := by omega
      have e3 : (b % 16 * 4 + c0 / 64) % 4 * 64 + c0 % 64 = c0 := by omega
      simp only [List.cons_append, List.nil_append]
      rw [e1, e2, e3]

/-- The characters surviving the `=`-filter are alphabet characters, so the
url-safe swap round-trips on them. -/
theorem map_urlToB64_map_b64ToUrl (b : List Nat) (h : ∀ x ∈ b, x < 256) :
    (((base64Encode b).filter (· ≠ '=')).map b64ToUrl).map urlToB64 =
      (base64Encode b).filter (· ≠ '=') := by
  rw [List.map_map]
  conv_rhs => rw [← List.map_id ((base64Encode b).filter (· ≠ '='))]
  apply List.map_congr_left
  intro c hc
  have hmem : c ∈ base64Encode b := List.mem_of_mem_filter hc
  have hne : c ≠ '=' := by
    have := List.of_mem_filter hc
    simpa using this
  rcases base64Encode_chars b h c hmem with halpha | heq
  · exact urlToB64_b64ToUrl_alphabet halpha
  · exact absurd heq hne

/-- Full base64url round-trip of `WebAuthModule::Base64UrlEncode`. -/
theorem base64UrlDecode_Base64UrlEncode (b : List Nat) (h : ∀ x ∈ b, x < 256) :
    base64UrlDecode (Base64UrlEncode b) = b := by
  unfold base64UrlDecode Base64UrlEncode
  rw [show (String.mk (((base64Encode b).filter (· ≠ '=')).map b64ToUrl)).toList
      = ((base64Encode b).filter (· ≠ '=')).map b64ToUrl from rfl]
  rw [map_urlToB64_map_b64ToUrl b h]
  exact base64Decode_padB64_filter b h

/-- No `+`, `/` or `=` ever appears in a base64url encoding. -/
theorem Base64UrlEncode_chars (b : List Nat) (h : ∀ x ∈ b, x < 256) :
    ∀ c ∈ (Base64UrlEncode b).toList, c ≠ '+' ∧ c ≠ '/' ∧ c ≠ '=' := by
  intro c hc
  have hc' : c ∈ ((base64Encode b).filter (· ≠ '=')).map b64ToUrl := hc
  rcases List.mem_map.mp hc' with ⟨d, hd, rfl⟩
  have hmem : d ∈ base64Encode b := List.mem_of_mem_filter hd
  have hne : d ≠ '=' := by
    have := List.of_mem_filter hd
    simpa using this
  rcases base64Encode_chars b h d hmem with halpha | heq
  · exact b64ToUrl_alphabet_ne halpha
  · exact absurd heq hne

/-- The length of the decoded round-trip equals the byte count (used for the
PKCE verifier's 32-byte property). -/
theorem base64UrlDecode_length (b : List Nat) (h : ∀ x ∈ b, x < 256) :
    (base64UrlDecode (Base64UrlEncode b)).length = b.length := by
  rw [base64UrlDecode_Base64UrlEncode b h]

/-! ## `generateCodeVerifier` -/

/-- Model of `BCRYPT_SUCCESS(status)`: an `NTSTATUS` is a success iff it is `≥ 0`. -/
def BCRYPT_SUCCESS (status : Int) : Bool := 0 ≤ status

/-- The `BCryptGenRandom` entropy source: a status and, on success, the
bytes it writes into a buffer of the requested size. -/
structure Entropy where
  status : Int
  bytes : Nat → List Nat
  bytes_length : ∀ n, (bytes n).length = n
  bytes_range : ∀ n, ∀ x ∈ bytes n, x < 256

/-- Model of `WebAuthModule::generateCodeVerifier`: request 32 bytes from
`BCryptGenRandom`; reject with `RANDOM_ERROR` on a non-success status,
otherwise resolve with the base64url encoding of the 32 bytes. -/
def generateCodeVerifier (ent : Entropy) : Except ReactError String :=
  if ¬ BCRYPT_SUCCESS ent.status then
    Except.error ⟨"RANDOM_ERROR", "Failed to generate random bytes"⟩
  else
    Except.ok (Base64UrlEncode (ent.bytes 32))

/-! ## `sha256` -/

/-- Observable steps of `WebAuthModule::sha256`'s BCrypt sequence. -/
inductive HashEvent
  | openProvider (ok : Bool)
  | createHash (ok : Bool)
  | hashData (ok : Bool)
  | finishHash (ok : Bool)
  | destroyHash
  | closeProvider
  | rejected (e : ReactError)
  | resolved (s : String)
deriving DecidableEq, Repr

/-- Outcomes of the external BCrypt provider calls for one `sha256` call.
The digest itself is computed by the OS provider (`BCRYPT_SHA256_ALGORITHM`),
outside this repository, so it is carried abstractly as a function from the
input string to the 32 bytes that `BCryptFinishHash` writes. -/
structure HashEnv where
  openStatus : Int
  createStatus : Int
  hashStatus : Int
  finishStatus : Int
  digest : String → List Nat
  digest_length : ∀ s, (digest s).length = 32
  digest_range : ∀ s, ∀ x ∈ digest s, x < 256

/-- Model of `WebAuthModule::sha256`: the four-stage BCrypt sequence with its handle
lifecycle, returning the event trace and the promise outcome. -/
def sha256 (env : HashEnv) (input : String) :
    List HashEvent × Except ReactError String :=
  if ¬ BCRYPT_SUCCESS env.openStatus then
    ([HashEvent.openProvider false,
      HashEvent.rejected ⟨"HASH_ERROR", "Failed to open algorithm provider"⟩],
     Except.error ⟨"HASH_ERROR", "Failed to open algorithm provider"⟩)
  else if ¬ BCRYPT_SUCCESS env.createStatus then
    ([HashEvent.openProvider true, HashEvent.createHash false,
      HashEvent.closeProvider,
      HashEvent.rejected ⟨"HASH_ERROR", "Failed to create hash"⟩],
     Except.error ⟨"HASH_ERROR", "Failed to create hash"⟩)
  else if ¬ BCRYPT_SUCCESS env.hashStatus then
    ([HashEvent.openProvider true, HashEvent.createHash true,
      HashEvent.hashData false, HashEvent.destroyHash,
      HashEvent.closeProvider,
      HashEvent.rejected ⟨"HASH_ERROR", "Failed to hash data"⟩],
     Except.error ⟨"HASH_ERROR", "Failed to hash data"⟩)
  else if ¬ BCRYPT_SUCCESS env.finishStatus then
    ([HashEvent.openProvider true, HashEvent.createHash true,
      HashEvent.hashData true, HashEvent.finishHash false,
      HashEvent.destroyHash, HashEvent.closeProvider,
      HashEvent.rejected ⟨"HASH_ERROR", "Failed to finish hash"⟩],
     Except.error ⟨"HASH_ERROR", "Failed to finish hash"⟩)
  else
    ([HashEvent.openProvider true, HashEvent.createHash true,
      HashEvent.hashData true, HashEvent.finishHash true,
      HashEvent.destroyHash, HashEvent.closeProvider,
      HashEvent.resolved (Base64UrlEncode (env.digest input))],
     Except.ok (Base64UrlEncode (env.digest input)))

/-! ## `authenticate`: the request-line pattern

`std::regex_search(request, match, std::regex(R"(GET\s+(/\S+)\s+HTTP)"))`
with ECMAScript semantics: the leftmost position where the pattern matches
wins.  At a fixed position the pattern is deterministic: after `GET`, `\s+`
must take the maximal whitespace run (taking less leaves a whitespace
character where `/` is required), `/\S+` the maximal non-whitespace run
(taking less leaves a non-whitespace character where `\s` is required),
then `\s+` again maximal, then the literal `HTTP`. -/

/-- The class `[[:space:]]` of the "C" locale (what `\s` matches for `char` input). -/
def isWs (c : Char) : Bool :=
  c = ' ' || c = '\t' || c = '\n' || c = '\x0b' || c = '\x0c' || c = '\r'

/-- Try to match `GET\s+(/\S+)\s+HTTP` at the head of the text; return the
first capture group (the path). -/
def matchFrom : List Char → Option (List Char)
  | 'G' :: 'E' :: 'T' :: rest =>
      if (rest.takeWhile (fun c => isWs c)).isEmpty then none
      else
        match rest.dropWhile (fun c => isWs c) with
        | '/' :: r2 =>
            let tok := r2.takeWhile (fun c => !isWs c)
            if tok.isEmpty then none
            else
              let r3 := r2.dropWhile (fun c => !isWs c)
              if (r3.takeWhile (fun c => isWs c)).isEmpty then none
              else if (r3.dropWhile (fun c => isWs c)).take 4 =
                  ['H', 'T', 'T', 'P'] then
                some ('/' :: tok)
              else none
        | _ => none
  | _ => none

/-- Model of `std::regex_search`: try every position left to right. -/
def regexSearch : List Char → Option (List Char)
  | [] => none
  | c :: rest =>
      match matchFrom (c :: rest) with
      | some cap => some cap
      | none => regexSearch rest

/-- The tail of `authenticate` after the request text is in hand: regex
search, `path.find('?')`, and the resolved value (`none` models resolving
with the `nullptr` `JSValue`). -/
def parseRequest (callbackScheme : String) (request : List Char) :
    Option String :=
  match regexSearch request with
  | none => none
  | some path =>
      if path.contains '?' then
        some (callbackScheme ++ "://callback" ++
          String.mk (path.dropWhile (· ≠ '?')))
      else none

/-! ## `authenticate`: the listener thread body -/

/-- Size of `char buf[4096]`. -/
def bufSize : Nat := 4096

/-- In `recv(clientSock, buf, sizeof(buf) - 1, 0)`, the requested byte count. -/
def recvMax : Nat := bufSize - 1

/-- Outcomes of the external Winsock / ShellExecute calls for one
`authenticate` invocation. `clientBytes` is what the accepted connection has
available for the single `recv`; `recvErr` models `recv` failing with a
negative return. -/
structure Env where
  wsaStartupRet : Int
  socketOk : Bool
  bindOk : Bool
  port : Nat
  listenOk : Bool
  acceptOk : Bool
  recvErr : Bool
  clientBytes : List Nat
  sendOk : Bool

/-- The value `recv` returns: `-1` on error, else the delivered byte count
(at most the requested `recvMax`). -/
def bytesReadOf (env : Env) : Int :=
  if env.recvErr then -1 else (min env.clientBytes.length recvMax : Nat)

/-- Model of `std::string request(buf)` after `buf[bytesRead] = '\0'`: the delivered
bytes (truncated to `recvMax`), cut at the first embedded NUL, viewed as
characters. -/
def requestOf (env : Env) : List Char :=
  ((env.clientBytes.take recvMax).takeWhile (· ≠ 0)).map Char.ofNat

/-- The string `"http://127.0.0.1:" + std::to_string(port) + "/callback"`. -/
def redirectUriOf (env : Env) : String :=
  "http://127.0.0.1:" ++ toString env.port ++ "/callback"

/-- The URL handed to `ShellExecuteW`: the caller's URL with
`redirect_uri` appended, `&`-joined iff the URL already contains `?`. -/
def fullUrlOf (env : Env) (url : String) : String :=
  if url.toList.contains '?' then url ++ "&redirect_uri=" ++ redirectUriOf env
  else url ++ "?redirect_uri=" ++ redirectUriOf env

/-- The fixed HTTP 200 response written back to the browser. -/
def httpResponse : String :=
  "HTTP/1.1 200 OK\r\nContent-Type: text/html\r\nConnection: close\r\n\r\n" ++
  "<html><body><p>Authentication complete. You may close this " ++
  "tab.</p><script>window.close()</script></body></html>"

/-- Observable steps of one `authenticate` invocation. -/
inductive Event
  | wsaStartup (ret : Int)
  | socketCreate (ok : Bool)
  | bindCall (ok : Bool)
  | listenCall (ok : Bool)
  | openUrl (u : String)
  | setRecvTimeout (ms : Nat)
  | acceptCall (ok : Bool)
  | recvCall (maxLen : Nat) (ret : Int)
  | sendResp (resp : String) (ok : Bool)
  | closeClient
  | closeListen
  | wsaCleanup
  | resolved (v : Option String)
  | rejected (e : ReactError)
deriving DecidableEq, Repr

/-- A terminal call on the result sink. -/
def Event.isTerminal : Event → Bool
  | Event.resolved _ => true
  | Event.rejected _ => true
  | _ => false

def wsaInitErr : ReactError := ⟨"SOCKET_ERROR", "Failed to initialize Winsock"⟩

def socketCreateErr : ReactError :=
  ⟨"SOCKET_ERROR", "Failed to create socket"⟩

def bindErr : ReactError := ⟨"SOCKET_ERROR", "Failed to bind socket"⟩

def listenErr : ReactError := ⟨"SOCKET_ERROR", "Failed to listen on socket"⟩

/-- The body of the detached thread of `WebAuthModule::authenticate`,
straight-line from the source: event trace plus the promise outcome
(`Except.ok none` models `Resolve(JSValue{nullptr})`). -/
def authenticate (env : Env) (url callbackScheme : String) :
    List Event × Except ReactError (Option String) :=
  if env.wsaStartupRet ≠ 0 then
    ([Event.wsaStartup env.wsaStartupRet, Event.rejected wsaInitErr],
     Except.error wsaInitErr)
  else if ¬ env.socketOk then
    ([Event.wsaStartup env.wsaStartupRet, Event.socketCreate false,
      Event.wsaCleanup, Event.rejected socketCreateErr],
     Except.error socketCreateErr)
  else if ¬ env.bindOk then
    ([Event.wsaStartup env.wsaStartupRet, Event.socketCreate true,
      Event.bindCall false, Event.closeListen, Event.wsaCleanup,
      Event.rejected bindErr],
     Except.error bindErr)
  else if ¬ env.listenOk then
    ([Event.wsaStartup env.wsaStartupRet, Event.socketCreate true,
      Event.bindCall true, Event.listenCall false, Event.closeListen,
      Event.wsaCleanup, Event.rejected listenErr],
     Except.error listenErr)
  else if ¬ env.acceptOk then
    ([Event.wsaStartup env.wsaStartupRet, Event.socketCreate true,
      Event.bindCall true, Event.listenCall true,
      Event.openUrl (fullUrlOf env url), Event.setRecvTimeout 60000,
      Event.acceptCall false, Event.closeListen, Event.wsaCleanup,
      Event.resolved none],
     Except.ok none)
  else if bytesReadOf env ≤ 0 then
    ([Event.wsaStartup env.wsaStartupRet, Event.socketCreate true,
      Event.bindCall true, Event.listenCall true,
      Event.openUrl (fullUrlOf env url), Event.setRecvTimeout 60000,
      Event.acceptCall true, Event.recvCall recvMax (bytesReadOf env),
      Event.closeClient, Event.closeListen, Event.wsaCleanup,
      Event.resolved none],
     Except.ok none)
  else
    ([Event.wsaStartup env.wsaStartupRet, Event.socketCreate true,
      Event.bindCall true, Event.listenCall true,
      Event.openUrl (fullUrlOf env url), Event.setRecvTimeout 60000,
      Event.acceptCall true, Event.recvCall recvMax (bytesReadOf env),
      Event.sendResp httpResponse env.sendOk, Event.closeClient,
      Event.closeListen, Event.wsaCleanup,
      Event.resolved (parseRequest callbackScheme (requestOf env))],
     Except.ok (parseRequest callbackScheme (requestOf env)))

/-! ## Helper lemmas about `authenticate` -/

/-- The path through `authenticate` that reaches request parsing: no setup
failure, a connection accepted, and a positive byte count read. -/
def ReachesParse (env : Env) : Prop :=
  env.wsaStartupRet = 0 ∧ env.socketOk = true ∧ env.bindOk = true ∧
  env.listenOk = true ∧ env.acceptOk = true ∧ env.recvErr = false ∧
  env.clientBytes ≠ []

instance (env : Env) : Decidable (ReachesParse env) := by
  unfold ReachesParse
  infer_instance

/-- On the parse-reaching path, `recv` returns a positive count. -/
theorem bytesReadOf_pos (env : Env) (h6 : env.recvErr = false)
    (h7 : env.clientBytes ≠ []) : ¬ bytesReadOf env ≤ 0 := by
  have hlen : 0 < env.clientBytes.length := List.length_pos.mpr h7
  simp only [bytesReadOf, h6, Bool.false_eq_true, if_false, recvMax, bufSize]
  omega

/-- The promise outcome of `authenticate`, by cases on the environment. -/
theorem authResult_eq (env : Env) (url callbackScheme : String) :
    (authenticate env url callbackScheme).2 =
      if env.wsaStartupRet ≠ 0 then Except.error wsaInitErr
      else if ¬ env.socketOk then Except.error socketCreateErr
      else if ¬ env.bindOk then Except.error bindErr
      else if ¬ env.listenOk then Except.error listenErr
      else if ¬ env.acceptOk then Except.ok none
      else if bytesReadOf env ≤ 0 then Except.ok none
      else Except.ok (parseRequest callbackScheme (requestOf env)) := by
  unfold authenticate
  split_ifs <;> rfl

/-- On the parse-reaching path, `authenticate` produces the full trace and
resolves with the parse result. -/
theorem authenticate_parse (env : Env) (url callbackScheme : String)
    (h : ReachesParse env) :
    authenticate env url callbackScheme =
      ([Event.wsaStartup 0, Event.socketCreate true, Event.bindCall true,
        Event.listenCall true, Event.openUrl (fullUrlOf env url),
        Event.setRecvTimeout 60000, Event.acceptCall true,
        Event.recvCall recvMax (bytesReadOf env),
        Event.sendResp httpResponse env.sendOk, Event.closeClient,
        Event.closeListen, Event.wsaCleanup,
        Event.resolved (parseRequest callbackScheme (requestOf env))],
       Except.ok (parseRequest callbackScheme (requestOf env))) := by
  obtain ⟨h1, h2, h3, h4, h5, h6, h7⟩ := h
  have hb := bytesReadOf_pos env h6 h7
  unfold authenticate
  rw [h1]
  simp [h2, h3, h4, h5, hb]

/-! ## Claims -/

/-- Concrete environment for the C1 scenario: the browser's redirect request
arrives on the accepted connection. -/
def envC1 : Env :=
  ⟨0, true, true, 49152, true, true, false,
   "GET /callback?code=abc123&state=xyz HTTP/1.1\r\n\r\n".toList.map
     Char.toNat, true⟩

/-- C1: whenever the request-line pattern matches with a path containing
`?`, `authenticate` resolves with
`callbackScheme ++ "://callback" ++ <path from the first '?' onward>` (the
query carried verbatim, leading `?` included); if the matched path has no
`?`, it resolves with null. -/
theorem C1_query_callback (env : Env) (url callbackScheme : String)
    (h : ReachesParse env) (path : List Char)
    (hmatch : regexSearch (requestOf env) = some path) :
    (authenticate env url callbackScheme).2 =
      Except.ok (if path.contains '?' then
        some (callbackScheme ++ "://callback" ++
          String.mk (path.dropWhile (· ≠ '?')))
      else none) := by
  rw [authenticate_parse env url callbackScheme h]
  simp [parseRequest, hmatch]

/-- C1 witness: the spec's scenario —
`GET /callback?code=abc123&state=xyz HTTP/1.1\r\n\r\n` with
`callbackScheme = "myapp"` resolves with
`"myapp://callback?code=abc123&state=xyz"`. -/
theorem C1_witness :
    (authenticate envC1 "https://login.example/auth" "myapp").2 =
      Except.ok (some "myapp://callback?code=abc123&state=xyz") := by
  have h := C1_query_callback envC1 "https://login.example/auth" "myapp"
    (by decide) ("/callback?code=abc123&state=xyz".toList) (by rfl)
  rw [h]
  rfl

/-- Concrete environment refuting C3: the received bytes do not begin with
the request-line pattern, yet the pattern occurs later in the bytes. -/
def envC3 : Env :=
  ⟨0, true, true, 49152, true, true, false,
   "x GET /a?b HTTP".toList.map Char.toNat, true⟩

/-- C3 counterexample: the received text does not begin with the pattern
(`matchFrom` fails at the start), but `authenticate` resolves with a
non-null callback URL because `std::regex_search` finds the pattern later
in the bytes — refuting the claim that such an input resolves with null. -/
theorem C3_counterexample :
    matchFrom (requestOf envC3) = none ∧
    requestOf envC3 = "x GET /a?b HTTP".toList ∧
    (authenticate envC3 "https://login.example/auth" "s").2 =
      Except.ok (some "s://callback?b") := by
  refine ⟨rfl, rfl, rfl⟩

/-- C3 (amended): the pattern is searched for anywhere in the received
bytes (leftmost match), not only at the start; a byte sequence in which the
pattern occurs nowhere resolves with null. -/
theorem C3_amended_no_match_null (env : Env) (url callbackScheme : String)
    (h : ReachesParse env)
    (hnone : regexSearch (requestOf env) = none) :
    (authenticate env url callbackScheme).2 = Except.ok none := by
  rw [authenticate_parse env url callbackScheme h]
  simp [parseRequest, hnone]

/-- Concrete environment for the amended C3's witness: no request-line
pattern anywhere in the received bytes. -/
def envC3b : Env :=
  ⟨0, true, true, 49152, true, true, false,
   "hello world".toList.map Char.toNat, true⟩

/-- Witness for the amended C3 at a concrete pattern-free input. -/
theorem C3_amended_witness :
    (authenticate envC3b "https://login.example/auth" "s").2 =
      Except.ok none :=
  C3_amended_no_match_null envC3b "https://login.example/auth" "s"
    (by decide) (by rfl)

/-- C2: `authenticate` rejects only for listener setup failures (Winsock
init, socket creation, bind, listen), always with kind `SOCKET_ERROR`;
accept timeout/error, zero-or-fewer bytes read, a non-matching request
line, and a query-less path all resolve with null. -/
theorem C2_reject_only_setup (env : Env) (url callbackScheme : String) :
    ((∃ e, (authenticate env url callbackScheme).2 = Except.error e) ↔
      (env.wsaStartupRet ≠ 0 ∨ env.socketOk = false ∨ env.bindOk = false ∨
        env.listenOk = false)) ∧
    (∀ e, (authenticate env url callbackScheme).2 = Except.error e →
      e.code = "SOCKET_ERROR") ∧
    (env.wsaStartupRet = 0 → env.socketOk = true → env.bindOk = true →
      env.listenOk = true →
      (env.acceptOk = false →
        (authenticate env url callbackScheme).2 = Except.ok none) ∧
      (env.acceptOk = true → bytesReadOf env ≤ 0 →
        (authenticate env url callbackScheme).2 = Except.ok none) ∧
      (env.acceptOk = true → ¬ bytesReadOf env ≤ 0 →
        regexSearch (requestOf env) = none →
        (authenticate env url callbackScheme).2 = Except.ok none) ∧
      (∀ path, env.acceptOk = true → ¬ bytesReadOf env ≤ 0 →
        regexSearch (requestOf env) = some path →
        path.contains '?' = false →
        (authenticate env url callbackScheme).2 = Except.ok none)) := by
  refine ⟨?_, ?_, ?_⟩
  · rw [authResult_eq]
    split_ifs with h1 h2 h3 h4 h5 h6 <;> simp_all [wsaInitErr,
      socketCreateErr, bindErr, listenErr]
  · intro e he
    rw [authResult_eq] at he
    split_ifs at he <;>
      simp_all [wsaInitErr, socketCreateErr, bindErr, listenErr] <;>
      rw [← he]
  · intro h1 h2 h3 h4
    refine ⟨?_, ?_, ?_, ?_⟩
    · intro h5
      rw [authResult_eq]
      simp [h1, h2, h3, h4, h5]
    · intro h5 h6
      rw [authResult_eq]
      simp [h1, h2, h3, h4, h5, h6]
    · intro h5 h6 h7
      rw [authResult_eq]
      simp [h1, h2, h3, h4, h5, h6, parseRequest, h7]
    · intro path h5 h6 h7 h8
      rw [authResult_eq]
      simp [h1, h2, h3, h4, h5, h6, parseRequest, h7, h8]
      simpa using h8

/-- Concrete environment for the C2 witness: accept times out. -/
def envC2 : Env := ⟨0, true, true, 49152, true, false, false, [], true⟩

/-- C2 witness: an accept timeout resolves with null. -/
theorem C2_witness :
    (authenticate envC2 "https://login.example/auth" "s").2 =
      Except.ok none :=
  ((C2_reject_only_setup envC2 "https://login.example/auth" "s").2.2
    rfl rfl rfl rfl).1 rfl

/-- C4: on every path, the result sink receives exactly one terminal call,
the terminal call is the last observable step (so every close precedes it),
the listening socket is closed whenever it was created, and the client
socket is closed whenever a connection was accepted. -/
theorem C4_single_terminal_no_leak (env : Env) (url callbackScheme : String) :
    (((authenticate env url callbackScheme).1.filter
      Event.isTerminal).length = 1) ∧
    (∃ t, (authenticate env url callbackScheme).1.getLast? = some t ∧
      t.isTerminal = true) ∧
    (Event.socketCreate true ∈ (authenticate env url callbackScheme).1 →
      Event.closeListen ∈ (authenticate env url callbackScheme).1) ∧
    (Event.acceptCall true ∈ (authenticate env url callbackScheme).1 →
      Event.closeClient ∈ (authenticate env url callbackScheme).1) := by
  unfold authenticate
  split_ifs <;> simp [Event.isTerminal, List.getLast?, List.filter]

/-- C5: the URL handed to the browser is the caller's URL with
`redirect_uri=http://127.0.0.1:{port}/callback` appended, `&`-joined iff
the caller's URL already contains `?`, where the port is the bound
listener's port. -/
theorem C5_browser_url (env : Env) (url callbackScheme : String)
    (h1 : env.wsaStartupRet = 0) (h2 : env.socketOk = true)
    (h3 : env.bindOk = true) (h4 : env.listenOk = true) :
    Event.openUrl (url ++ (if url.toList.contains '?' then "&" else "?") ++
        "redirect_uri=" ++ "http://127.0.0.1:" ++ toString env.port ++
        "/callback") ∈ (authenticate env url callbackScheme).1 := by
  have heq : fullUrlOf env url =
      url ++ (if url.toList.contains '?' then "&" else "?") ++
        "redirect_uri=" ++ "http://127.0.0.1:" ++ toString env.port ++
        "/callback" := by
    unfold fullUrlOf redirectUriOf
    split_ifs with hq
    · simp only [← String.append_assoc]
      rw [show (url ++ "&") ++ "redirect_uri=" = url ++ "&redirect_uri=" from
        by rw [String.append_assoc]; rfl]
    · simp only [← String.append_assoc]
      rw [show (url ++ "?") ++ "redirect_uri=" = url ++ "?redirect_uri=" from
        by rw [String.append_assoc]; rfl]
  rw [← heq]
  unfold authenticate
  rw [h1]
  split_ifs <;> simp_all

/-- C5 witness: a concrete URL without a query gets `?redirect_uri=...`. -/
theorem C5_witness :
    Event.openUrl ("https://login.example/auth" ++ "?" ++ "redirect_uri=" ++
        "http://127.0.0.1:" ++ toString (49152 : Nat) ++ "/callback") ∈
      (authenticate envC2 "https://login.example/auth" "s").1 :=
  C5_browser_url envC2 "https://login.example/auth" "s" rfl rfl rfl rfl

/-- Update of the send outcome only (`send`'s return value is ignored by
the source). -/
def setSendOk (e : Env) (b : Bool) : Env :=
  ⟨e.wsaStartupRet, e.socketOk, e.bindOk, e.port, e.listenOk, e.acceptOk,
   e.recvErr, e.clientBytes, b⟩

/-- C9: once a positive number of bytes is read, the fixed HTTP 200
response is written and both sockets are closed before the resolve that
carries the parse result — on match, no-match and no-query outcomes alike
(the trace shape holds for every `clientBytes`) — and the resolved value
never depends on whether the response write succeeds. -/
theorem C9_response_always_sent (env : Env) (url callbackScheme : String)
    (h : ReachesParse env) :
    (authenticate env url callbackScheme).1 =
      [Event.wsaStartup 0, Event.socketCreate true, Event.bindCall true,
       Event.listenCall true, Event.openUrl (fullUrlOf env url),
       Event.setRecvTimeout 60000, Event.acceptCall true,
       Event.recvCall recvMax (bytesReadOf env),
       Event.sendResp httpResponse env.sendOk, Event.closeClient,
       Event.closeListen, Event.wsaCleanup,
       Event.resolved (parseRequest callbackScheme (requestOf env))] ∧
    (∀ b : Bool, (authenticate (setSendOk env b) url callbackScheme).2 =
      (authenticate env url callbackScheme).2) := by
  constructor
  · rw [authenticate_parse env url callbackScheme h]
  · intro b
    rw [authResult_eq (setSendOk env b) url callbackScheme,
      authResult_eq env url callbackScheme]
    rfl

/-- C9 witness at the concrete scenario environment. -/
theorem C9_witness :
    (authenticate (setSendOk envC1 false) "https://login.example/auth"
        "myapp").2 =
      (authenticate envC1 "https://login.example/auth" "myapp").2 :=
  (C9_response_always_sent envC1 "https://login.example/auth" "myapp"
    (by decide)).2 false

/-- Update of the connection's available bytes only. -/
def setClientBytes (e : Env) (cb : List Nat) : Env :=
  ⟨e.wsaStartupRet, e.socketOk, e.bindOk, e.port, e.listenOk, e.acceptOk,
   e.recvErr, cb, e.sendOk⟩

/-- C10: the single `recv` requests at most `4095 = 4096 - 1` bytes (one
byte of the buffer reserved for the NUL terminator, so the terminating
write at index `bytesRead` is in bounds), longer requests are truncated
(the outcome depends only on the first 4095 bytes), and the pattern sees
only the received bytes up to the first embedded NUL. -/
theorem C10_recv_bounded_truncated (env : Env) (url callbackScheme : String)
    (h : ReachesParse env) :
    recvMax = 4095 ∧ bufSize = 4096 ∧
    bytesReadOf env ≤ (recvMax : Int) ∧ ((recvMax : Int) < (bufSize : Int)) ∧
    Event.recvCall recvMax (bytesReadOf env) ∈
      (authenticate env url callbackScheme).1 ∧
    (authenticate env url callbackScheme).2 =
      Except.ok (parseRequest callbackScheme
        (((env.clientBytes.take recvMax).takeWhile (· ≠ 0)).map
          Char.ofNat)) ∧
    (∀ cb1 cb2 : List Nat, cb1.take recvMax = cb2.take recvMax →
      cb1 ≠ [] → cb2 ≠ [] →
      (authenticate (setClientBytes env cb1) url callbackScheme).2 =
        (authenticate (setClientBytes env cb2) url callbackScheme).2) := by
  obtain ⟨h1, h2, h3, h4, h5, h6, h7⟩ := h
  refine ⟨rfl, rfl, ?_, by decide, ?_, ?_, ?_⟩
  · simp only [bytesReadOf, h6, Bool.false_eq_true, if_false, recvMax,
      bufSize]
    omega
  · rw [authenticate_parse env url callbackScheme ⟨h1, h2, h3, h4, h5, h6, h7⟩]
    simp
  · rw [authenticate_parse env url callbackScheme ⟨h1, h2, h3, h4, h5, h6, h7⟩]
    rfl
  · intro cb1 cb2 hts hne1 hne2
    have hb1 : ¬ bytesReadOf (setClientBytes env cb1) ≤ 0 :=
      bytesReadOf_pos (setClientBytes env cb1) h6 hne1
    have hb2 : ¬ bytesReadOf (setClientBytes env cb2) ≤ 0 :=
      bytesReadOf_pos (setClientBytes env cb2) h6 hne2
    rw [authResult_eq (setClientBytes env cb1) url callbackScheme,
      authResult_eq (setClientBytes env cb2) url callbackScheme]
    simp only [setClientBytes, requestOf, bytesReadOf, h6] at hb1 hb2 ⊢
    simp [h1, h2, h3, h4, h5, hts, hb1, hb2]
    simp [hne1, hne2, recvMax, bufSize]

/-- C10 witness at the concrete scenario environment. -/
theorem C10_witness :
    bytesReadOf envC1 ≤ (recvMax : Int) ∧
    (authenticate envC1 "https://login.example/auth" "myapp").2 =
      Except.ok (parseRequest "myapp"
        (((envC1.clientBytes.take recvMax).takeWhile (· ≠ 0)).map
          Char.ofNat)) := by
  have h := C10_recv_bounded_truncated envC1 "https://login.example/auth"
    "myapp" (by decide)
  exact ⟨h.2.2.1, h.2.2.2.2.2.1⟩

/-- C6: a base64url encoding never contains `+`, `/` or `=`; re-adding
standard padding and swapping the url-safe characters back decodes to
exactly the input bytes; the encoder is total (a Lean function) and maps
empty input to the empty string. -/
theorem C6_base64url_props (b : List Nat) (h : ∀ x ∈ b, x < 256) :
    (∀ c ∈ (Base64UrlEncode b).toList, c ≠ '+' ∧ c ≠ '/' ∧ c ≠ '=') ∧
    base64UrlDecode (Base64UrlEncode b) = b ∧
    Base64UrlEncode [] = "" :=
  ⟨Base64UrlEncode_chars b h, base64UrlDecode_Base64UrlEncode b h, rfl⟩

/-- C6 witness at concrete bytes (a value whose base64 form contains `+`
and `/` before the url-safe swap). -/
theorem C6_witness :
    base64UrlDecode (Base64UrlEncode [0, 255, 7, 251, 239]) =
      [0, 255, 7, 251, 239] ∧
    (∀ c ∈ (Base64UrlEncode [0, 255, 7, 251, 239]).toList,
      c ≠ '+' ∧ c ≠ '/' ∧ c ≠ '=') := by
  have h := C6_base64url_props [0, 255, 7, 251, 239] (by decide)
  exact ⟨h.2.1, h.1⟩

/-- Concrete entropy source for the C7 witness. -/
def entW : Entropy :=
  ⟨0, fun n => List.replicate n 0, fun n => List.length_replicate n 0,
   fun _ x hx => by rw [List.eq_of_mem_replicate hx]; omega⟩

/-- C7: `generateCodeVerifier` requests exactly 32 bytes from the entropy
source; on success it resolves with their base64url encoding — which
base64url-decodes to exactly those 32 bytes — and on a non-success status
it rejects with kind `RANDOM_ERROR`. -/
theorem C7_codeVerifier (ent : Entropy) :
    (BCRYPT_SUCCESS ent.status = true →
      generateCodeVerifier ent = Except.ok (Base64UrlEncode (ent.bytes 32)) ∧
      base64UrlDecode (Base64UrlEncode (ent.bytes 32)) = ent.bytes 32 ∧
      (ent.bytes 32).length = 32) ∧
    (BCRYPT_SUCCESS ent.status = false →
      generateCodeVerifier ent =
        Except.error ⟨"RANDOM_ERROR", "Failed to generate random bytes"⟩) := by
  constructor
  · intro hs
    refine ⟨?_, ?_, ?_⟩
    · unfold generateCodeVerifier
      simp [hs]
    · exact base64UrlDecode_Base64UrlEncode (ent.bytes 32)
        (ent.bytes_range 32)
    · exact ent.bytes_length 32
  · intro hs
    unfold generateCodeVerifier
    simp [hs]

/-- C7 witness at the concrete entropy source. -/
theorem C7_witness :
    generateCodeVerifier entW = Except.ok (Base64UrlEncode (entW.bytes 32)) ∧
    base64UrlDecode (Base64UrlEncode (entW.bytes 32)) = entW.bytes 32 ∧
    (entW.bytes 32).length = 32 :=
  (C7_codeVerifier entW).1 rfl

/-- A terminal call on the result sink of `sha256`. -/
def HashEvent.isTerminal : HashEvent → Bool
  | HashEvent.rejected _ => true
  | HashEvent.resolved _ => true
  | _ => false

/-- The promise outcome of `sha256`, by cases on the provider statuses. -/
theorem sha256Result_eq (env : HashEnv) (input : String) :
    (sha256 env input).2 =
      if ¬ BCRYPT_SUCCESS env.openStatus then
        Except.error ⟨"HASH_ERROR", "Failed to open algorithm provider"⟩
      else if ¬ BCRYPT_SUCCESS env.createStatus then
        Except.error ⟨"HASH_ERROR", "Failed to create hash"⟩
      else if ¬ BCRYPT_SUCCESS env.hashStatus then
        Except.error ⟨"HASH_ERROR", "Failed to hash data"⟩
      else if ¬ BCRYPT_SUCCESS env.finishStatus then
        Except.error ⟨"HASH_ERROR", "Failed to finish hash"⟩
      else Except.ok (Base64UrlEncode (env.digest input)) := by
  unfold sha256
  split_ifs <;> rfl

/-- C8: `sha256` resolves with the base64url encoding of the provider's
32-byte digest of the input, and rejects — always with kind `HASH_ERROR`
and a distinct stage-specific message — iff provider initialization,
hash-object creation, mid-stream hashing or finalization fails; on every
path each acquired handle is released and the terminal call is last. -/
theorem C8_sha256_stages (env : HashEnv) (input : String) :
    ((∃ e, (sha256 env input).2 = Except.error e) ↔
      (BCRYPT_SUCCESS env.openStatus = false ∨
       BCRYPT_SUCCESS env.createStatus = false ∨
       BCRYPT_SUCCESS env.hashStatus = false ∨
       BCRYPT_SUCCESS env.finishStatus = false)) ∧
    (∀ e, (sha256 env input).2 = Except.error e → e.code = "HASH_ERROR") ∧
    (BCRYPT_SUCCESS env.openStatus = true →
     BCRYPT_SUCCESS env.createStatus = true →
     BCRYPT_SUCCESS env.hashStatus = true →
     BCRYPT_SUCCESS env.finishStatus = true →
      (sha256 env input).2 = Except.ok (Base64UrlEncode (env.digest input)) ∧
      base64UrlDecode (Base64UrlEncode (env.digest input)) =
        env.digest input ∧
      (env.digest input).length = 32) ∧
    (BCRYPT_SUCCESS env.openStatus = false →
      (sha256 env input).2 =
        Except.error ⟨"HASH_ERROR", "Failed to open algorithm provider"⟩) ∧
    (BCRYPT_SUCCESS env.openStatus = true →
     BCRYPT_SUCCESS env.createStatus = false →
      (sha256 env input).2 =
        Except.error ⟨"HASH_ERROR", "Failed to create hash"⟩) ∧
    (BCRYPT_SUCCESS env.openStatus = true →
     BCRYPT_SUCCESS env.createStatus = true →
     BCRYPT_SUCCESS env.hashStatus = false →
      (sha256 env input).2 =
        Except.error ⟨"HASH_ERROR", "Failed to hash data"⟩) ∧
    (BCRYPT_SUCCESS env.openStatus = true →
     BCRYPT_SUCCESS env.createStatus = true →
     BCRYPT_SUCCESS env.hashStatus = true →
     BCRYPT_SUCCESS env.finishStatus = false →
      (sha256 env input).2 =
        Except.error ⟨"HASH_ERROR", "Failed to finish hash"⟩) ∧
    (["Failed to open algorithm provider", "Failed to create hash",
      "Failed to hash data", "Failed to finish hash"] :
      List String).Pairwise (· ≠ ·) ∧
    (((sha256 env input).1.filter HashEvent.isTerminal).length = 1) ∧
    (∃ t, (sha256 env input).1.getLast? = some t ∧ t.isTerminal = true) ∧
    (HashEvent.openProvider true ∈ (sha256 env input).1 →
      HashEvent.closeProvider ∈ (sha256 env input).1) ∧
    (HashEvent.createHash true ∈ (sha256 env input).1 →
      HashEvent.destroyHash ∈ (sha256 env input).1) := by
  refine ⟨?_, ?_, ?_, ?_, ?_, ?_, ?_, by decide, ?_, ?_, ?_, ?_⟩
  · rw [sha256Result_eq]
    split_ifs with g1 g2 g3 g4 <;> simp_all
  · intro e he
    rw [sha256Result_eq] at he
    split_ifs at he <;> simp_all <;> rw [← he]
  · intro g1 g2 g3 g4
    rw [sha256Result_eq]
    refine ⟨by simp [g1, g2, g3, g4], ?_, env.digest_length input⟩
    exact base64UrlDecode_Base64UrlEncode (env.digest input)
      (env.digest_range input)
  · intro g1
    rw [sha256Result_eq]
    simp [g1]
  · intro g1 g2
    rw [sha256Result_eq]
    simp [g1, g2]
  · intro g1 g2 g3
    rw [sha256Result_eq]
    simp [g1, g2, g3]
  · intro g1 g2 g3 g4
    rw [sha256Result_eq]
    simp [g1, g2, g3, g4]
  · unfold sha256
    split_ifs <;> simp [HashEvent.isTerminal, List.filter]
  · unfold sha256
    split_ifs <;> simp [HashEvent.isTerminal, List.getLast?]
  · unfold sha256
    split_ifs <;> simp
  · unfold sha256
    split_ifs <;> simp

/-- Concrete provider outcomes for the C8 witness: every stage succeeds. -/
def hashEnvW : HashEnv :=
  ⟨0, 0, 0, 0, fun _ => List.replicate 32 0,
   fun _ => List.length_replicate 32 0,
   fun _ x hx => by rw [List.eq_of_mem_replicate hx]; omega⟩

/-- C8 witness: all stages succeed on the concrete provider. -/
theorem C8_witness :
    (sha256 hashEnvW "abc").2 =
      Except.ok (Base64UrlEncode (hashEnvW.digest "abc")) ∧
    (hashEnvW.digest "abc").length = 32 := by
  have h := (C8_sha256_stages hashEnvW "abc").2.2.1 rfl rfl rfl rfl
  exact ⟨h.1, h.2.2⟩

end WebAuth
